import Mathlib

/-!
Verification of the Mangapill downloader core against its specification.

The Python sources are modelled by a shallow embedding: effectful calls
(HTTP fetches, filesystem operations) are represented by explicit outcome
parameters, and each source function becomes a total Lean function over
those outcomes. Machine floats for delays are modelled by rationals.
-/

deriving instance DecidableEq for Except

namespace Mangapill

/-! ## Retry wrapper (src/downloader/retry.py, with_retry / retry_request)

The decorated operation is modelled as a function from the attempt index
to an Except value: at each attempt the operation either returns a value
or raises an exception. The wrapper loop
`for attempt in range(max_retries + 1)` catches exactly the exceptions in
the `exceptions` tuple (modelled by the predicate `catches`), sleeps
`base_delay * 2 ** attempt` when `attempt < max_retries`, and raises
RetryError from the last exception after the loop. -/

/-- Outcome of a run of the retry wrapper: a returned value, a RetryError
carrying the last underlying exception, or an uncaught exception that
propagated out of the wrapper. -/
inductive RunResult (E A : Type) where
  | ok (a : A)
  | exhausted (last : Option E)
  | uncaught (e : E)
  deriving DecidableEq

/-- Observable trace of one run of the retry wrapper: how many times the
wrapped operation was executed, the total time slept, and the outcome. -/
structure RetryRun (E A : Type) where
  attempts : Nat
  slept : ℚ
  outcome : RunResult E A
  deriving DecidableEq

/-- The loop body of with_retry: `attempt` is the current 0-indexed
attempt, `r` the number of loop iterations left (so the last iteration,
where no sleep happens, is `r = 1`), `last` the last caught exception. -/
def retryAux {E A : Type} (catches : E → Bool) (op : Nat → Except E A) (D : ℚ) :
    Nat → Nat → Option E → RetryRun E A
  | _, 0, last => ⟨0, 0, .exhausted last⟩
  | attempt, r + 1, _ =>
    match op attempt with
    | .ok a => ⟨1, 0, .ok a⟩
    | .error e =>
      if catches e then
        if r = 0 then
          ⟨1, 0, .exhausted (some e)⟩
        else
          let rest := retryAux catches op D (attempt + 1) r (some e)
          ⟨rest.attempts + 1, D * 2 ^ attempt + rest.slept, rest.outcome⟩
      else ⟨1, 0, .uncaught e⟩

/-- Model of with_retry(max_retries, base_delay, exceptions)(op): run the
loop with `max_retries + 1` iterations starting at attempt 0. -/
def with_retry {E A : Type} (max_retries : Nat) (base_delay : ℚ)
    (catches : E → Bool) (op : Nat → Except E A) : RetryRun E A :=
  retryAux catches op base_delay 0 (max_retries + 1) none

theorem retryAux_attempts_le {E A : Type} (catches : E → Bool)
    (op : Nat → Except E A) (D : ℚ) :
    ∀ (r attempt : Nat) (last : Option E),
      (retryAux catches op D attempt r last).attempts ≤ r := by
  intro r
  induction r with
  | zero => intro attempt last; simp [retryAux]
  | succ r ih =>
    intro attempt last
    simp only [retryAux]
    cases op attempt with
    | ok a => simp
    | error e =>
      by_cases hc : catches e
      · simp only [hc, if_true]
        by_cases hr : r = 0
        · simp [hr]
        · simp only [hr, if_false]
          have := ih (attempt + 1) (some e)
          omega
      · simp [hc]

/-! ## Exception taxonomy (src/downloader/retry.py, retry_request)

Python exception classes relevant to the retry policy, with their base
class chains: requests.RequestException derives from IOError (= OSError),
requests.Timeout, requests.ConnectionError and requests.HTTPError derive
from RequestException, the builtin ConnectionError and TimeoutError derive
from OSError, and every class derives from Exception. -/

/-- Exception classes observable by with_retry via retry_request. -/
inductive ExcClass where
  | exception
  | osError
  | connectionError
  | timeoutError
  | requestException
  | reqTimeout
  | reqConnectionError
  | httpError
  | valueError
  | typeError
  | attributeError
  deriving DecidableEq

/-- The class itself followed by its base classes. -/
def ExcClass.ancestors : ExcClass → List ExcClass
  | .exception => [.exception]
  | .osError => [.osError, .exception]
  | .connectionError => [.connectionError, .osError, .exception]
  | .timeoutError => [.timeoutError, .osError, .exception]
  | .requestException => [.requestException, .osError, .exception]
  | .reqTimeout => [.reqTimeout, .requestException, .osError, .exception]
  | .reqConnectionError => [.reqConnectionError, .requestException, .osError, .exception]
  | .httpError => [.httpError, .requestException, .osError, .exception]
  | .valueError => [.valueError, .exception]
  | .typeError => [.typeError, .exception]
  | .attributeError => [.attributeError, .exception]

/-- Python isinstance on exception classes. -/
def ExcClass.isSubclass (c d : ExcClass) : Bool := c.ancestors.contains d

/-- The exception tuple passed by retry_request to with_retry:
(requests.RequestException, requests.Timeout, requests.ConnectionError,
ConnectionError, TimeoutError); an exception is caught when it is an
instance of one of these classes. -/
def retry_request_catches (c : ExcClass) : Bool :=
  c.isSubclass .requestException || c.isSubclass .reqTimeout ||
    c.isSubclass .reqConnectionError || c.isSubclass .connectionError ||
    c.isSubclass .timeoutError

/-! ## Configuration (src/constants.py and src/config.py) -/

def DEFAULT_OUTPUT_DIR : String := "./downloads"

def DEFAULT_OUTPUT_FORMAT : String := "images"

def DEFAULT_KEEP_IMAGES : Bool := true

def DEFAULT_MAX_CHAPTER_WORKERS : Int := 3

def DEFAULT_MAX_IMAGE_WORKERS : Int := 5

def DEFAULT_RETRY_COUNT : Int := 3

def DEFAULT_RETRY_BASE_DELAY : ℚ := 2

/-- The Config dataclass of src/config.py. JSON integers are unbounded, so
the worker fields are modelled as integers. -/
structure Config where
  output_dir : String := DEFAULT_OUTPUT_DIR
  output_format : String := DEFAULT_OUTPUT_FORMAT
  keep_images : Bool := DEFAULT_KEEP_IMAGES
  max_chapter_workers : Int := DEFAULT_MAX_CHAPTER_WORKERS
  max_image_workers : Int := DEFAULT_MAX_IMAGE_WORKERS
  retry_count : Int := DEFAULT_RETRY_COUNT
  retry_base_delay : ℚ := DEFAULT_RETRY_BASE_DELAY
  deriving DecidableEq

/-- A parsed config.json object: each known key is present or absent.
Values under the known keys are modelled at their expected types. -/
structure ConfigData where
  output_dir : Option String := none
  output_format : Option String := none
  keep_images : Option Bool := none
  max_chapter_workers : Option Int := none
  max_image_workers : Option Int := none
  retry_count : Option Int := none
  retry_base_delay : Option ℚ := none
  deriving DecidableEq

/-- Config.from_dict: every field is data.get(key, DEFAULT). -/
def Config.from_dict (data : ConfigData) : Config where
  output_dir := data.output_dir.getD DEFAULT_OUTPUT_DIR
  output_format := data.output_format.getD DEFAULT_OUTPUT_FORMAT
  keep_images := data.keep_images.getD DEFAULT_KEEP_IMAGES
  max_chapter_workers := data.max_chapter_workers.getD DEFAULT_MAX_CHAPTER_WORKERS
  max_image_workers := data.max_image_workers.getD DEFAULT_MAX_IMAGE_WORKERS
  retry_count := data.retry_count.getD DEFAULT_RETRY_COUNT
  retry_base_delay := data.retry_base_delay.getD DEFAULT_RETRY_BASE_DELAY

/-- The settings menu (src/cli/prompts.py, choice 4) after reading a value:
config.max_chapter_workers = max(1, min(10, value)). -/
def clamp_max_chapter_workers (v : Int) : Int := max 1 (min 10 v)

/-- The settings menu (src/cli/prompts.py, choice 5) after reading a value:
config.max_image_workers = max(1, min(20, value)). -/
def clamp_max_image_workers (v : Int) : Int := max 1 (min 20 v)

/-! ## Chapter download unit (src/downloader/manager.py) -/

/-- The Chapter dataclass of src/scrapers/manga.py (number as stored after
construction). -/
structure Chapter where
  title : String
  url : String
  number : Option String := none
  deriving DecidableEq

/-- The DownloadResult dataclass of src/downloader/manager.py. -/
structure DownloadResult where
  success : Bool
  path : Option String := none
  error : Option String := none
  images_count : Nat := 0
  deriving DecidableEq

/-- Sanitization of the manga title in download_chapter_images:
join of the characters that are alphanumeric or in (space, dash,
underscore), then strip. -/
def sanitizeMangaTitle (t : String) : String :=
  (t.data.filter (fun c => c.isAlphanum || c = ' ' || c = '-' || c = '_')).asString.trim

/-- Sanitization of the chapter folder in download_chapter_images: like
the title but also keeping dots. -/
def sanitizeChapterFolder (t : String) : String :=
  (t.data.filter (fun c =>
    c.isAlphanum || c = ' ' || c = '-' || c = '_' || c = '.')).asString.trim

/-- The expression chapter.number or chapter.title: a missing or empty
(falsy) number falls back to the title. -/
def chapterFolderName (ch : Chapter) : String :=
  match ch.number with
  | some n => if n = "" then ch.title else n
  | none => ch.title

/-- Destination folder of a chapter:
output_dir / safe_title / "Chapter " + chapter_folder. -/
def chapterPath (output_dir manga_title : String) (ch : Chapter) : String :=
  output_dir ++ "/" ++ sanitizeMangaTitle manga_title ++ "/" ++ "Chapter " ++
    sanitizeChapterFolder (chapterFolderName ch)

/-- Outcomes of the effectful collaborators of download_chapter_images:
the scrape of the image URL list (a value or a raised exception message),
the chapter folder creation (none = ok, some message = raised), and the
boolean result of each download_image call. download_image itself catches
every exception and returns a boolean (src/downloader/manager.py lines
91-106), so one boolean per submitted image is the faithful shape. -/
structure ChapterEnv where
  scrape : Except String (List String)
  mkdirError : Option String
  imageOk : List Bool

/-- DownloadManager.download_chapter_images: scrape the image URLs, return
a failure result when the list is empty, create the chapter folder, submit
one download per image, count the successes, and declare success iff every
image download succeeded. Any exception inside the body is caught and
turned into a failure result carrying the message. -/
def download_chapter_images (output_dir : String) (ch : Chapter)
    (manga_title : String) (env : ChapterEnv) : DownloadResult :=
  match env.scrape with
  | .error e => { success := false, error := some e }
  | .ok image_urls =>
    if image_urls.isEmpty then
      { success := false, error := some "No images found in chapter" }
    else
      match env.mkdirError with
      | some e => { success := false, error := some e }
      | none =>
        let successful_downloads := env.imageOk.countP (fun b => b)
        { success := successful_downloads == image_urls.length
          path := some (chapterPath output_dir manga_title ch)
          images_count := successful_downloads }

/-! ## Image filenames (src/downloader/manager.py lines 157-160)

For the i-th URL (1-based), the source computes
ext = os.path.splitext(urlparse(url).path)[1] or ".jpg" and
filename = f-string 03d of i followed by ext. The models of urlparse
(CPython urllib.parse.urlsplit plus the params split of urlparse) and of
os.path.splitext (genericpath._splitext with sep = slash) follow. -/

/-- The format f-string 03d: the decimal digit characters (Nat.toDigits
10 is the decimal digit list underlying Nat.repr) left-padded with zeros
to width 3. -/
def pad3 (i : Nat) : String :=
  ⟨List.replicate (3 - (Nat.toDigits 10 i).length) '0' ++ Nat.toDigits 10 i⟩

/-- Characters allowed after the first character of a URL scheme. -/
def schemeChar (c : Char) : Bool := c.isAlphanum || c = '+' || c = '-' || c = '.'

/-- The scheme removal step of urlsplit: when a colon at position i > 0 is
preceded by an ASCII letter followed by scheme characters, the scheme and
the colon are dropped. -/
def stripScheme (url : List Char) : List Char :=
  match url.findIdx? (fun c => c = ':') with
  | none => url
  | some i =>
    match url with
    | [] => url
    | c0 :: _ =>
      if 0 < i && c0.isAlpha && ((url.take i).drop 1).all schemeChar then
        url.drop (i + 1)
      else url

/-- The fragment split of urlsplit: the part before the first hash sign. -/
def dropFragment (url : List Char) : List Char := url.takeWhile (fun c => c ≠ '#')

/-- The query split of urlsplit: the part before the first question mark. -/
def dropQuery (url : List Char) : List Char := url.takeWhile (fun c => c ≠ '?')

/-- The netloc split of urlsplit on a URL already stripped of the leading
double slash: the remainder after the netloc, or none when the netloc has
mismatched IPv6 brackets (urlsplit raises ValueError there). -/
def netlocSplit (url : List Char) : Option (List Char) :=
  let netloc := url.takeWhile (fun c => c ≠ '/' && c ≠ '?' && c ≠ '#')
  if (netloc.contains '[' && !netloc.contains ']') ||
      (netloc.contains ']' && !netloc.contains '[') then none
  else some (url.drop netloc.length)

/-- Index of the last occurrence of a character, or 0 when absent (only
used under a containment guard). -/
def lastIndexOf (l : List Char) (c : Char) : Nat :=
  l.enum.foldl (fun acc p => if p.2 = c then p.1 else acc) 0

/-- First index of the character at or after start. -/
def findFrom (l : List Char) (c : Char) (start : Nat) : Option Nat :=
  ((l.drop start).findIdx? (fun x => x = c)).map (fun j => start + j)

/-- The params split of urlparse: when the last path segment holds a
semicolon, the part from that semicolon on is removed. -/
def splitParams (url : List Char) : List Char :=
  let start := if url.contains '/' then lastIndexOf url '/' else 0
  match findFrom url ';' start with
  | none => url
  | some i => url.take i

/-- The path component of urlparse(url): remove tab, CR and LF, strip a
valid scheme, strip a // netloc when present, cut at the first hash and
question mark, then split params. none models the ValueError raised on
mismatched IPv6 brackets. -/
def urlparsePath (url : String) : Option (List Char) :=
  let u0 := url.data.filter (fun c => c ≠ '\t' && c ≠ '\x0d' && c ≠ '\n')
  let u1 := stripScheme u0
  let path? :=
    if u1.take 2 = ['/', '/'] then
      (netlocSplit (u1.drop 2)).map (fun rest => dropQuery (dropFragment rest))
    else some (dropQuery (dropFragment u1))
  path?.map splitParams

/-- os.path.splitext on a POSIX path: split at the last dot of the final
component, unless every character of the final component before that dot
is itself a dot (mirrors the while loop of genericpath). -/
def splitext (p : List Char) : List Char × List Char :=
  let sepIndex := (p.enum.foldl (fun acc q => if q.2 = '/' then (q.1 : Int) else acc) (-1))
  let dotIndex := (p.enum.foldl (fun acc q => if q.2 = '.' then (q.1 : Int) else acc) (-1))
  if sepIndex < dotIndex then
    let fIdx := (sepIndex + 1).toNat
    if (List.range' fIdx (dotIndex.toNat - fIdx)).any (fun k => p.getD k ' ' ≠ '.') then
      (p.take dotIndex.toNat, p.drop dotIndex.toNat)
    else (p, [])
  else (p, [])

/-- The extension assigned to an image URL:
os.path.splitext(urlparse(url).path)[1] or ".jpg". -/
def image_ext (url : String) : Option String :=
  (urlparsePath url).map (fun p =>
    let e := (splitext p).2
    if e.isEmpty then ".jpg" else ⟨e⟩)

/-- The filename assigned to the i-th image URL (1-based). -/
def image_filename (i : Nat) (url : String) : Option String :=
  (image_ext url).map (fun e => pad3 i ++ e)

/-- The filenames produced by the enumerate(image_urls, start=i) loop. -/
def image_filenames_from (i : Nat) : List String → Option (List String)
  | [] => some []
  | u :: us =>
    match image_filename i u with
    | none => none
    | some f => (image_filenames_from (i + 1) us).map (fun fs => f :: fs)

/-- The filenames produced for a chapter image URL list (start = 1). -/
def image_filenames (urls : List String) : Option (List String) :=
  image_filenames_from 1 urls

/-! ## Chapter selection parser (src/cli/prompts.py, parse_chapter_selection) -/

/-- ValueError variants raised by parse_chapter_selection, one constructor
per raise site (chapterOutOfBounds is the raise inside the try block that
its own except handler replaces). -/
inductive SelError where
  | invalidRange (part : String)
  | rangeOutOfBounds (s e total : Nat)
  | reversedRange (s e : Nat)
  | chapterOutOfBounds (n total : Nat)
  | invalidChapter (part : String)
  deriving DecidableEq

/-- Whitespace class of the regex backslash-s (ASCII). -/
def pySpace (c : Char) : Bool :=
  c = ' ' || c = '\t' || c = '\n' || c = '\x0d' || c = '\x0b' || c = '\x0c'

/-- Numeric value of a digit string. -/
def digitsVal (l : List Char) : Nat := l.foldl (fun n c => 10 * n + (c.toNat - 48)) 0

/-- Digit run with optional single underscores between digits, as accepted
by the Python int constructor after the sign. -/
def underscoreTail : List Char → Bool
  | [] => true
  | '_' :: c :: rest => c.isDigit && underscoreTail rest
  | '_' :: [] => false
  | c :: rest => c.isDigit && underscoreTail rest

/-- Python int(s) for strings without a minus sign: strip whitespace, drop
an optional plus, then require digits with optional grouping underscores. -/
def pyIntNonneg (s : List Char) : Option Nat :=
  let s1 := ((s.dropWhile pySpace).reverse.dropWhile pySpace).reverse
  let s2 := match s1 with
    | '+' :: r => r
    | _ => s1
  match s2 with
  | [] => none
  | c :: rest =>
    if c.isDigit && underscoreTail rest then
      some (digitsVal ((c :: rest).filter (fun x => x ≠ '_')))
    else none

/-- The regex match of (digits)\s*-\s*(digits) at the start of the part
(re.match anchors at the start only). -/
def matchRange (part : List Char) : Option (Nat × Nat) :=
  let d1 := part.takeWhile Char.isDigit
  let r1 := part.dropWhile Char.isDigit
  if d1.isEmpty then none
  else
    match r1.dropWhile pySpace with
    | '-' :: r3 =>
      let d2 := (r3.dropWhile pySpace).takeWhile Char.isDigit
      if d2.isEmpty then none else some (digitsVal d1, digitsVal d2)
    | _ => none

/-- One comma-separated part of the selection, already stripped. The
single-chapter branch mirrors the try/except of the source: the attempted
computation is run first, and any ValueError it raises (from int() or from
the explicit out-of-bounds raise) is replaced by the invalid-chapter
error. -/
def parsePart (part : String) (total : Nat) : Except SelError (List Nat) :=
  if part.data.contains '-' then
    match matchRange part.data with
    | none => .error (.invalidRange part)
    | some (s, e) =>
      if s < 1 || total < e then .error (.rangeOutOfBounds s e total)
      else if e < s then .error (.reversedRange s e)
      else .ok (List.range' (s - 1) (e - (s - 1)))
  else
    match
      (match pyIntNonneg part.data with
       | none => Except.error (SelError.invalidChapter part)
       | some num =>
         if num < 1 || total < num then
           Except.error (SelError.chapterOutOfBounds num total)
         else Except.ok (num - 1)) with
    | .ok v => .ok [v]
    | .error _ => .error (.invalidChapter part)

/-- Insertion into a strictly ascending list, dropping duplicates. -/
def insertAsc (n : Nat) : List Nat → List Nat
  | [] => [n]
  | m :: rest =>
    if n < m then n :: m :: rest
    else if n = m then m :: rest
    else m :: insertAsc n rest

/-- sorted(set(l)): the distinct elements in ascending order. -/
def setSorted (l : List Nat) : List Nat := l.foldl (fun acc n => insertAsc n acc) []

/-- Python split on a comma: the empty string yields one empty part, and
each comma opens a new part. -/
def splitOnComma : List Char → List (List Char)
  | [] => [[]]
  | c :: rest =>
    if c = ',' then [] :: splitOnComma rest
    else
      match splitOnComma rest with
      | [] => [[c]]
      | r :: rs => (c :: r) :: rs

/-- Python str.strip() on ASCII input: drop whitespace from both ends. -/
def stripPy (l : List Char) : List Char :=
  ((l.dropWhile pySpace).reverse.dropWhile pySpace).reverse

/-- parse_chapter_selection(selection, total): split on commas, parse each
stripped part, accumulate the indices into a set, and return them sorted
ascending; the first raised error propagates. -/
def parse_chapter_selection (selection : String) (total : Nat) :
    Except SelError (List Nat) := do
  let parts := splitOnComma selection.data
  let idxs ← parts.foldlM (fun acc part => do
    let l ← parsePart ⟨stripPy part⟩ total
    pure (acc ++ l)) ([] : List Nat)
  pure (setSorted idxs)

/-! ## Batch orchestrator with cancellation (src/gui/bridge.py, DownloadWorker)

The run method and the cancel slot are modelled as a state machine driven
by an explicit schedule of events. submit models one iteration of the
submission loop (including its cancellation check and termination),
enter i models the entry of _download_single_chapter for chapter i in a
worker thread (with its own cancellation check), finish i models that
chapter download completing with success given by the parameter succ,
process models one iteration of the as_completed results loop (with its
cancellation check, which breaks the loop), and cancel models the cancel
slot setting the shared flag. started records the chapters whose download
actually ran. -/

inductive BatchEvent where
  | cancel
  | submit
  | enter (i : Nat)
  | finish (i : Nat)
  | process
  deriving DecidableEq

structure BatchState where
  pending : List Nat
  queued : List Nat
  running : List Nat
  doneQ : List (Nat × Option Bool)
  started : List Nat
  successful : Nat
  failed : Nat
  completed : Nat
  processedCount : Nat
  submittedCount : Nat
  cancelled : Bool
  submitting : Bool
  processing : Bool
  deriving DecidableEq

def batchStep (succ : Nat → Bool) (s : BatchState) (e : BatchEvent) : BatchState :=
  match e with
  | .cancel => { s with cancelled := true }
  | .submit =>
    if s.submitting then
      match s.pending with
      | [] => { s with submitting := false }
      | c :: rest =>
        if s.cancelled then { s with submitting := false }
        else
          { s with pending := rest, queued := s.queued ++ [c],
                   submittedCount := s.submittedCount + 1 }
    else s
  | .enter i =>
    if s.queued.contains i then
      if s.cancelled then
        { s with queued := s.queued.erase i, doneQ := s.doneQ ++ [(i, none)] }
      else
        { s with queued := s.queued.erase i, running := s.running ++ [i],
                 started := s.started ++ [i] }
    else s
  | .finish i =>
    if s.running.contains i then
      { s with running := s.running.erase i, doneQ := s.doneQ ++ [(i, some (succ i))] }
    else s
  | .process =>
    if s.processing && !s.submitting then
      if s.processedCount = s.submittedCount then { s with processing := false }
      else if s.cancelled then { s with processing := false }
      else
        match s.doneQ with
        | [] => s
        | (_, r) :: rest =>
          { s with doneQ := rest,
                   processedCount := s.processedCount + 1,
                   completed := s.completed + 1,
                   successful := if r = some true then s.successful + 1 else s.successful,
                   failed := if r = some true then s.failed else s.failed + 1 }
    else s

/-- Initial state of DownloadWorker.run over n selected chapters. -/
def batchInit (n : Nat) : BatchState :=
  ⟨List.range n, [], [], [], [], 0, 0, 0, 0, 0, false, true, true⟩

/-- The batch state after a schedule of events. -/
def runBatch (succ : Nat → Bool) (n : Nat) (events : List BatchEvent) : BatchState :=
  events.foldl (batchStep succ) (batchInit n)

/-! ## Worker pool bound (src/downloader/manager.py, download_chapters)

download_chapters submits chapters.length chapter units to a
ThreadPoolExecutor(max_workers = config.max_chapter_workers). The pool is
modelled by counts of queued, running and finished units: a queued unit
may start only while fewer than max_workers units run (the documented
ThreadPoolExecutor bound), and a running unit may finish. -/

structure PoolState where
  queued : Nat
  running : Nat
  done : Nat
  deriving DecidableEq

inductive PoolStep (W : Nat) : PoolState → PoolState → Prop where
  | start (q r d : Nat) : r < W → PoolStep W ⟨q + 1, r, d⟩ ⟨q, r + 1, d⟩
  | finish (q r d : Nat) : PoolStep W ⟨q, r + 1, d⟩ ⟨q, r, d + 1⟩

inductive PoolReachable (W N : Nat) : PoolState → Prop where
  | init : PoolReachable W N ⟨N, 0, 0⟩
  | step {s t : PoolState} : PoolReachable W N s → PoolStep W s t → PoolReachable W N t

/-- The pool states reachable while download_chapters runs a chapter list
under a configuration. -/
def download_chapters_pool (cfg : Config) (chapters : List Chapter)
    (s : PoolState) : Prop :=
  PoolReachable cfg.max_chapter_workers.toNat chapters.length s

/-! ## Converters (src/converters/pdf.py and src/converters/cbz.py)

Filesystem effects are modelled by environments: the folder checks, the
file listing, the per-image PIL outcomes, and the success of the archive
write, the temp unlinks and the folder removal. The outcome records the
returned value, whether the source folder was removed, and the files in
the source folder at return time. -/

def IMAGE_EXTENSIONS : List String := [".jpg", ".jpeg", ".png", ".gif", ".webp", ".bmp"]

/-- Membership test f.suffix.lower() in image_extensions on a file name. -/
def isImageFile (name : String) : Bool :=
  IMAGE_EXTENSIONS.contains ⟨((splitext name.data).2).map Char.toLower⟩

/-- Lexicographic comparison of path names by character codepoint, the
order sorted() uses on the path strings. -/
def leChars : List Char → List Char → Bool
  | [], _ => true
  | _ :: _, [] => false
  | a :: as, b :: bs => if a = b then leChars as bs else decide (a < b)

/-- Insertion sort step for sorted() over path names. -/
def insertStr (x : String) : List String → List String
  | [] => [x]
  | y :: rest => if leChars x.data y.data then x :: y :: rest else y :: insertStr x rest

/-- sorted() over path names in one folder. -/
def sortStrings (l : List String) : List String := l.foldr insertStr []

/-- img_path.with_suffix of the temp JPEG name: the name with its last
extension replaced by .temp.jpg. -/
def tempName (name : String) : String := ⟨(splitext name.data).1⟩ ++ ".temp.jpg"

/-- PIL image modes as far as convert_to_pdf distinguishes them. -/
inductive ImgMode where
  | rgba
  | p
  | other
  deriving DecidableEq

structure PdfEnv where
  folderName : String
  folderExists : Bool
  isDir : Bool
  files : List String
  mode : String → ImgMode
  openOk : String → Bool
  saveOk : String → Bool
  writeOk : Bool
  unlinkOk : String → Bool
  rmtreeOk : Bool

structure FsOutcome where
  result : Option String
  folderRemoved : Bool
  folderFiles : List String
  deriving DecidableEq

/-- One iteration of the image preprocessing loop of convert_to_pdf: the
accumulator is (processed_images, temp_files). An image whose PIL open or
temp save raises is skipped (the inner except); an RGBA or palette image
is re-encoded to a temp JPEG inside the source folder. -/
def processImage (env : PdfEnv) (acc : List String × List String) (f : String) :
    List String × List String :=
  if env.openOk f then
    match env.mode f with
    | .rgba => if env.saveOk f then (acc.1 ++ [tempName f], acc.2 ++ [tempName f]) else acc
    | .p => if env.saveOk f then (acc.1 ++ [tempName f], acc.2 ++ [tempName f]) else acc
    | .other => (acc.1 ++ [f], acc.2)
  else acc

/-- convert_to_pdf with the default output path. Temp files are removed
only on the success path; on a failed PDF write the except branch returns
None with no cleanup, so the temp files stay in the source folder. The
folder itself is removed only after a successful write when keep_images is
false and rmtree does not raise. -/
def convert_to_pdf (env : PdfEnv) (keep_images : Bool) : FsOutcome :=
  if !env.folderExists || !env.isDir then ⟨none, false, env.files⟩
  else
    let image_files := sortStrings (env.files.filter isImageFile)
    if image_files.isEmpty then ⟨none, false, env.files⟩
    else
      let pt := image_files.foldl (processImage env) ([], [])
      if pt.1.isEmpty then ⟨none, false, env.files ++ pt.2⟩
      else if env.writeOk then
        let remainingTemps := pt.2.filter (fun t => !env.unlinkOk t)
        if !keep_images && env.rmtreeOk then
          ⟨some (env.folderName ++ ".pdf"), true, []⟩
        else ⟨some (env.folderName ++ ".pdf"), false, env.files ++ remainingTemps⟩
      else ⟨none, false, env.files ++ pt.2⟩

structure CbzEnv where
  folderName : String
  folderExists : Bool
  isDir : Bool
  files : List String
  writeOk : Bool
  rmtreeOk : Bool

/-- convert_to_cbz with the default output path: the zip is written file
by file outside the source folder; on a failed write the except branch
returns None and the source folder is untouched. The folder is removed
only after a successful write when keep_images is false and rmtree does
not raise. -/
def convert_to_cbz (env : CbzEnv) (keep_images : Bool) : FsOutcome :=
  if !env.folderExists || !env.isDir then ⟨none, false, env.files⟩
  else
    let image_files := sortStrings (env.files.filter isImageFile)
    if image_files.isEmpty then ⟨none, false, env.files⟩
    else if env.writeOk then
      if !keep_images && env.rmtreeOk then ⟨some (env.folderName ++ ".cbz"), true, []⟩
      else ⟨some (env.folderName ++ ".cbz"), false, env.files⟩
    else ⟨none, false, env.files⟩

/-! ## Theorems -/

theorem sum_pow_shift (D : ℚ) (attempt m : Nat) :
    D * 2 ^ attempt + ∑ k in Finset.range m, D * 2 ^ (attempt + 1 + k) =
      ∑ k in Finset.range (m + 1), D * 2 ^ (attempt + k) := by
  rw [Finset.sum_range_succ']
  have h : ∀ k, attempt + 1 + k = attempt + (k + 1) := fun k => by omega
  simp only [h, Nat.add_zero]
  ring

theorem retryAux_succeeds {E A : Type} (catches : E → Bool)
    (op : Nat → Except E A) (D : ℚ) :
    ∀ (m attempt r : Nat) (last : Option E) (v : A),
      m < r →
      (∀ k, k < m → ∃ e, op (attempt + k) = .error e ∧ catches e = true) →
      op (attempt + m) = .ok v →
      retryAux catches op D attempt r last =
        ⟨m + 1, ∑ k in Finset.range m, D * 2 ^ (attempt + k), .ok v⟩ := by
  intro m
  induction m with
  | zero =>
    intro attempt r last v hmr hfail hok
    obtain ⟨r, rfl⟩ : ∃ r', r = r' + 1 := ⟨r - 1, by omega⟩
    simp only [Nat.add_zero] at hok
    simp [retryAux, hok]
  | succ m ih =>
    intro attempt r last v hmr hfail hok
    obtain ⟨r, rfl⟩ : ∃ r', r = r' + 1 := ⟨r - 1, by omega⟩
    obtain ⟨e, he, hce⟩ := hfail 0 (Nat.succ_pos m)
    simp only [Nat.add_zero] at he
    have hr : r ≠ 0 := by omega
    have hrest := ih (attempt + 1) r (some e) v (by omega)
      (fun k hk => by
        obtain ⟨e', he', hce'⟩ := hfail (k + 1) (by omega)
        exact ⟨e', by rw [← he']; ring_nf, hce'⟩)
      (by rw [← hok]; ring_nf)
    simp only [retryAux, he, hce, if_true, hr, if_false, hrest]
    rw [sum_pow_shift]

theorem retryAux_exhausts {E A : Type} (catches : E → Bool)
    (op : Nat → Except E A) (D : ℚ) :
    ∀ (r attempt : Nat) (last : Option E) (errs : Nat → E),
      0 < r →
      (∀ k, k < r → op (attempt + k) = .error (errs k) ∧ catches (errs k) = true) →
      retryAux catches op D attempt r last =
        ⟨r, ∑ k in Finset.range (r - 1), D * 2 ^ (attempt + k),
          .exhausted (some (errs (r - 1)))⟩ := by
  intro r
  induction r with
  | zero => intro attempt last errs h; omega
  | succ r ih =>
    intro attempt last errs _ hfail
    obtain ⟨he, hce⟩ := hfail 0 (Nat.succ_pos r)
    simp only [Nat.add_zero] at he
    by_cases hr : r = 0
    · subst hr
      simp [retryAux, he, hce]
    · have hrest := ih (attempt + 1) (some (errs 0)) (fun k => errs (k + 1))
        (by omega)
        (fun k hk => by
          obtain ⟨he', hce'⟩ := hfail (k + 1) (by omega)
          exact ⟨by rw [← he']; ring_nf, hce'⟩)
      simp only [retryAux, he, hce, if_true, hr, if_false, hrest]
      have hr1 : r - 1 + 1 = r := by omega
      simp only [Nat.add_sub_cancel, hr1]
      obtain ⟨r', rfl⟩ : ∃ r'', r = r'' + 1 := ⟨r - 1, by omega⟩
      rw [Nat.add_sub_cancel, sum_pow_shift]

theorem retryAux_uncaught {E A : Type} (catches : E → Bool)
    (op : Nat → Except E A) (D : ℚ) :
    ∀ (m attempt r : Nat) (last : Option E) (e : E),
      m < r →
      (∀ k, k < m → ∃ e', op (attempt + k) = .error e' ∧ catches e' = true) →
      op (attempt + m) = .error e → catches e = false →
      retryAux catches op D attempt r last =
        ⟨m + 1, ∑ k in Finset.range m, D * 2 ^ (attempt + k), .uncaught e⟩ := by
  intro m
  induction m with
  | zero =>
    intro attempt r last e hmr hfail herr hnc
    obtain ⟨r, rfl⟩ : ∃ r', r = r' + 1 := ⟨r - 1, by omega⟩
    simp only [Nat.add_zero] at herr
    simp [retryAux, herr, hnc]
  | succ m ih =>
    intro attempt r last e hmr hfail herr hnc
    obtain ⟨r, rfl⟩ : ∃ r', r = r' + 1 := ⟨r - 1, by omega⟩
    obtain ⟨e', he', hce'⟩ := hfail 0 (Nat.succ_pos m)
    simp only [Nat.add_zero] at he'
    have hr : r ≠ 0 := by omega
    have hrest := ih (attempt + 1) r (some e') e (by omega)
      (fun k hk => by
        obtain ⟨e'', he'', hce''⟩ := hfail (k + 1) (by omega)
        exact ⟨e'', by rw [← he'']; ring_nf, hce''⟩)
      (by rw [← herr]; ring_nf) hnc
    simp only [retryAux, he', hce', if_true, hr, if_false, hrest]
    rw [sum_pow_shift]


/-- Claim C2: the retry wrapper executes the wrapped operation at most
max_retries + 1 times; when the operation fails f times with retryable
errors and then succeeds, with f ≤ max_retries, the wrapper returns the
success value having slept D * (2^0 + 2^1 + ... + 2^(f-1)); when
f > max_retries, it raises RetryError carrying the last underlying error
after exactly max_retries + 1 attempts. -/
theorem with_retry_spec {E A : Type} (max_retries : Nat) (D : ℚ)
    (catches : E → Bool) (op : Nat → Except E A) (f : Nat) (v : A) (errs : Nat → E)
    (hfail : ∀ k, k < f → op k = .error (errs k) ∧ catches (errs k) = true) :
    (with_retry max_retries D catches op).attempts ≤ max_retries + 1 ∧
    (f ≤ max_retries → op f = .ok v →
      with_retry max_retries D catches op =
        ⟨f + 1, D * ∑ k in Finset.range f, (2 : ℚ) ^ k, .ok v⟩) ∧
    (max_retries < f →
      with_retry max_retries D catches op =
        ⟨max_retries + 1, D * ∑ k in Finset.range max_retries, (2 : ℚ) ^ k,
          .exhausted (some (errs max_retries))⟩) := by
  refine ⟨retryAux_attempts_le catches op D (max_retries + 1) 0 none, ?_, ?_⟩
  · intro hf hok
    have h := retryAux_succeeds catches op D f 0 (max_retries + 1) none v (by omega)
      (fun k hk => ⟨errs k, by simpa using (hfail k hk).1, (hfail k hk).2⟩)
      (by simpa using hok)
    rw [with_retry, h]
    simp [Finset.mul_sum]
  · intro hf
    have h := retryAux_exhausts catches op D (max_retries + 1) 0 none errs
      (Nat.succ_pos _)
      (fun k hk => ⟨by simpa using (hfail k (by omega)).1, (hfail k (by omega)).2⟩)
    rw [with_retry, h]
    simp [Finset.mul_sum]

/-- Witness for with_retry_spec: an operation failing twice then returning
7, with max_retries = 3 and base delay 1. -/
theorem with_retry_spec_witness :
    with_retry 3 1 (fun _ => true)
        (fun k => if k < 2 then Except.error k else Except.ok 7) =
      ⟨2 + 1, 1 * ∑ k in Finset.range 2, (2 : ℚ) ^ k, .ok 7⟩ :=
  (with_retry_spec 3 1 (fun _ => true) _ 2 7 (fun k => k)
    (fun k hk => ⟨by simp [hk], rfl⟩)).2.1 (by omega) (by simp)

/-- Claim C8: retry_request catches exactly the network and timeout
exception classes (request exceptions, including the HTTP error raised for
a non-2xx status, the requests timeout and connection errors, and the
builtin connection and timeout errors); any other exception raised by the
wrapped operation propagates at once, after a single attempt and with no
backoff sleep. -/
theorem retry_request_only_network {A : Type} :
    (∀ c : ExcClass, retry_request_catches c = true ↔
      (c = .requestException ∨ c = .reqTimeout ∨ c = .reqConnectionError ∨
        c = .httpError ∨ c = .connectionError ∨ c = .timeoutError)) ∧
    (∀ (max_retries : Nat) (D : ℚ) (op : Nat → Except ExcClass A) (e : ExcClass),
      op 0 = .error e → retry_request_catches e = false →
      with_retry max_retries D retry_request_catches op = ⟨1, 0, .uncaught e⟩) := by
  constructor
  · intro c
    cases c <;> decide
  · intro maxR D op e he hnc
    have h := retryAux_uncaught retry_request_catches op D 0 0 (maxR + 1) none e
      (by omega) (fun k hk => absurd hk (by omega)) (by simpa using he) hnc
    rw [with_retry, h]
    simp

/-- Witness for retry_request_only_network: a ValueError raised on the
first attempt propagates uncaught after one attempt and no sleep. -/
theorem retry_request_only_network_witness :
    with_retry 3 1 retry_request_catches
        (fun _ => (Except.error ExcClass.valueError : Except ExcClass Nat)) =
      ⟨1, 0, .uncaught .valueError⟩ :=
  (retry_request_only_network (A := Nat)).2 3 1 _ .valueError rfl (by decide)

theorem pool_invariant (W N : Nat) (s : PoolState) (h : PoolReachable W N s) :
    s.queued + s.running + s.done = N ∧ s.running ≤ W := by
  induction h with
  | init => simp
  | step hr hs ih =>
    cases hs with
    | start q r d hrW =>
      simp only at ih ⊢
      omega
    | finish q r d =>
      simp only at ih ⊢
      omega

/-- Claim C9: while download_chapters runs N chapter units on a pool of
max_chapter_workers workers, the number of concurrently running chapter
units never exceeds min(N, max_chapter_workers). -/
theorem download_chapters_concurrency_bound (cfg : Config) (chapters : List Chapter)
    (s : PoolState) (h : download_chapters_pool cfg chapters s) :
    s.running ≤ min chapters.length cfg.max_chapter_workers.toNat := by
  obtain ⟨h1, h2⟩ := pool_invariant _ _ s h
  omega

/-- Witness for download_chapters_concurrency_bound: one unit running out
of two chapters under the default configuration. -/
theorem download_chapters_concurrency_bound_witness :
    (⟨1, 1, 0⟩ : PoolState).running ≤
      min ([⟨"c1", "u1", none⟩, ⟨"c2", "u2", none⟩] : List Chapter).length
        (Config.from_dict {}).max_chapter_workers.toNat :=
  download_chapters_concurrency_bound (Config.from_dict {}) _ _
    (PoolReachable.step PoolReachable.init (PoolStep.start 1 0 0 (by decide)))

/-- Counterexample for Claim C1 at k = 0: a chapter whose resolved image
list is empty has k = 0 images and j = 0 = k successes (vacuously every
image download succeeded), yet download_chapter_images returns a result
with success = false. -/
theorem download_chapter_images_empty_counterexample :
    (download_chapter_images "./downloads" ⟨"Chapter 1", "u", some "1"⟩ "T"
        ⟨.ok [], none, []⟩).success = false ∧
    ([] : List Bool).countP (fun b => b) = ([] : List String).length :=
  ⟨rfl, rfl⟩

/-- Claim C1 (amended to non-empty image lists): for a chapter whose
resolved image list has k ≥ 1 entries, with one boolean outcome per image
download of which j are true, the result has success = false and count j
when j < k, success = true when j = k, and whenever success = true the
path is non-null and the count equals k. -/
theorem download_chapter_images_success_spec (output_dir manga_title : String)
    (ch : Chapter) (urls : List String) (oks : List Bool) (r : DownloadResult)
    (hlen : oks.length = urls.length) (hne : urls ≠ [])
    (hr : r = download_chapter_images output_dir ch manga_title ⟨.ok urls, none, oks⟩) :
    (oks.countP (fun b => b) < urls.length →
      r.success = false ∧ r.images_count = oks.countP (fun b => b)) ∧
    (oks.countP (fun b => b) = urls.length → r.success = true) ∧
    (r.success = true → r.path ≠ none ∧ r.images_count = urls.length) := by
  have hempty : urls.isEmpty = false := by
    cases urls with
    | nil => exact absurd rfl hne
    | cons a l => rfl
  subst hr
  simp only [download_chapter_images, hempty, Bool.false_eq_true, if_false]
  refine ⟨fun hlt => ⟨?_, trivial⟩, fun heq => ?_, fun hs => ?_⟩
  · simp only [beq_eq_false_iff_ne]
    omega
  · simp only [beq_iff_eq]
    exact heq
  · simp only [beq_iff_eq] at hs
    exact ⟨by simp, hs⟩

/-- Witness for download_chapter_images_success_spec: three images of
which two succeed give a failed result counting 2. -/
theorem download_chapter_images_success_spec_witness :
    (download_chapter_images "./downloads" ⟨"Chapter 1", "u", some "1"⟩ "T"
        ⟨.ok ["a", "b", "c"], none, [true, false, true]⟩).success = false ∧
    (download_chapter_images "./downloads" ⟨"Chapter 1", "u", some "1"⟩ "T"
        ⟨.ok ["a", "b", "c"], none, [true, false, true]⟩).images_count =
      ([true, false, true] : List Bool).countP (fun b => b) :=
  (download_chapter_images_success_spec "./downloads" "T" ⟨"Chapter 1", "u", some "1"⟩
    ["a", "b", "c"] [true, false, true] _ (by decide) (by decide) rfl).1 (by decide)

/-- Counterexample for Claim C5: the failure result for an empty image
list carries the message "No images found in chapter", not the message
"no images found" stated by the claim. -/
theorem no_images_message_counterexample :
    (download_chapter_images "./downloads" ⟨"Chapter 1", "u", some "1"⟩ "T"
        ⟨.ok [], none, []⟩).error = some "No images found in chapter" ∧
    "No images found in chapter" ≠ "no images found" :=
  ⟨rfl, by decide⟩

/-- Claim C5 (amended to the actual message text): download_chapter_images
never propagates an exception: a raised scrape error yields a failure
result carrying its message, an empty image list yields a failure result
with the message "No images found in chapter" (no retry happens at this
level: the result is produced directly), and a raised folder-creation
error yields a failure result carrying its message. -/
theorem download_chapter_images_error_spec (output_dir manga_title : String)
    (ch : Chapter) (env : ChapterEnv) :
    (∀ e, env.scrape = .error e →
      download_chapter_images output_dir ch manga_title env =
        { success := false, error := some e }) ∧
    (env.scrape = .ok [] →
      download_chapter_images output_dir ch manga_title env =
        { success := false, error := some "No images found in chapter" }) ∧
    (∀ e urls, env.scrape = .ok urls → urls ≠ [] → env.mkdirError = some e →
      download_chapter_images output_dir ch manga_title env =
        { success := false, error := some e }) := by
  refine ⟨fun e he => ?_, fun he => ?_, fun e urls he hne hm => ?_⟩
  · simp [download_chapter_images, he]
  · simp [download_chapter_images, he]
  · have hempty : urls.isEmpty = false := by
      cases urls with
      | nil => exact absurd rfl hne
      | cons a l => rfl
    simp [download_chapter_images, he, hempty, hm]

/-- Witness for download_chapter_images_error_spec: a raised scrape error
becomes a failure result with its message. -/
theorem download_chapter_images_error_spec_witness :
    download_chapter_images "./downloads" ⟨"Chapter 1", "u", some "1"⟩ "T"
        ⟨.error "boom", none, []⟩ =
      { success := false, error := some "boom" } :=
  (download_chapter_images_error_spec "./downloads" "T" ⟨"Chapter 1", "u", some "1"⟩
    ⟨.error "boom", none, []⟩).1 "boom" rfl

/-- Counterexample for Claim C7: a config file holding
max_chapter_workers = 0 loads through Config.from_dict into a Config whose
chapter worker count is 0, violating the claimed invariant that the
concurrency fields are always at least 1. -/
theorem from_dict_workers_counterexample :
    (Config.from_dict { max_chapter_workers := some 0 }).max_chapter_workers = 0 ∧
    ¬(1 ≤ (Config.from_dict { max_chapter_workers := some 0 }).max_chapter_workers) := by
  decide

/-- Claim C7 (amended): the settings-update path clamps the worker fields
into [1, 10] and [1, 20] respectively, so the values it stores are always
at least 1, and loading a file in which the worker fields are absent
yields the defaults 3 and 5; but Config.from_dict performs no validation
of present values. -/
theorem config_workers_clamped (v w : Int) (d : ConfigData)
    (hc : d.max_chapter_workers = none) (hi : d.max_image_workers = none) :
    1 ≤ clamp_max_chapter_workers v ∧ clamp_max_chapter_workers v ≤ 10 ∧
    1 ≤ clamp_max_image_workers w ∧ clamp_max_image_workers w ≤ 20 ∧
    1 ≤ (Config.from_dict d).max_chapter_workers ∧
    1 ≤ (Config.from_dict d).max_image_workers := by
  refine ⟨le_max_left 1 _, ?_, le_max_left 1 _, ?_, ?_, ?_⟩
  · simp only [clamp_max_chapter_workers]
    omega
  · simp only [clamp_max_image_workers]
    omega
  · simp [Config.from_dict, hc, DEFAULT_MAX_CHAPTER_WORKERS]
  · simp [Config.from_dict, hi, DEFAULT_MAX_IMAGE_WORKERS]

/-- Witness for config_workers_clamped at v = 0, w = 100 and an empty
config file. -/
theorem config_workers_clamped_witness :
    1 ≤ clamp_max_chapter_workers 0 ∧ clamp_max_chapter_workers 0 ≤ 10 ∧
    1 ≤ clamp_max_image_workers 100 ∧ clamp_max_image_workers 100 ≤ 20 ∧
    1 ≤ (Config.from_dict {}).max_chapter_workers ∧
    1 ≤ (Config.from_dict {}).max_image_workers :=
  config_workers_clamped 0 100 {} rfl rfl

/-- Claim C6 evaluated on the code: the selection "1,3,5-7" over 10 total
chapters parses to the 0-based indices [0, 2, 4, 5, 6] and "3-1" raises
the reversed-range ValueError, as the claim states; but "11" over 10
total raises the generic invalid-chapter-number ValueError rather than the
out-of-bounds one, because the out-of-bounds ValueError raised inside the
try block is caught by the immediately following except ValueError handler
of that same block and replaced. -/
theorem parse_chapter_selection_cases :
    parse_chapter_selection "1,3,5-7" 10 = .ok [0, 2, 4, 5, 6] ∧
    parse_chapter_selection "3-1" 10 = .error (.reversedRange 3 1) ∧
    parse_chapter_selection "11" 10 = .error (.invalidChapter "11") ∧
    parse_chapter_selection "11" 10 ≠ .error (.chapterOutOfBounds 11 10) := by
  decide

theorem batchStep_cancelled (succ : Nat → Bool) (s : BatchState)
    (e : BatchEvent) (h : s.cancelled = true) :
    (batchStep succ s e).started = s.started ∧
      (batchStep succ s e).cancelled = true := by
  cases e with
  | cancel => simp [batchStep]
  | submit =>
    simp only [batchStep]
    cases hs : s.submitting
    · simp [h]
    · cases s.pending with
      | nil => simp [h]
      | cons c rest => simp [h]
  | enter i =>
    simp only [batchStep]
    cases hq : s.queued.contains i <;> simp [h]
  | finish i =>
    simp only [batchStep]
    cases hq : s.running.contains i <;> simp [h]
  | process =>
    simp only [batchStep]
    cases hp : s.processing && !s.submitting
    · simp [h]
    · simp only [if_true]
      by_cases hpc : s.processedCount = s.submittedCount
      · simp [hpc, h]
      · simp [hpc, h]

/-- Claim C4 (amended): once the shared cancellation flag is set, the set
of chapter units whose download has actually started never grows, whatever
events follow: pending units are never submitted and submitted units that
reach their entry check return without downloading. (Units already
running drain to completion, but their results are counted in the outcome
only if the results loop processes them before observing the flag; see
the counterexample for the stated claim.) -/
theorem batch_no_new_starts_after_cancel (succ : Nat → Bool)
    (s : BatchState) (events : List BatchEvent) (h : s.cancelled = true) :
    (events.foldl (batchStep succ) s).started = s.started := by
  induction events generalizing s with
  | nil => rfl
  | cons e evs ih =>
    obtain ⟨h1, h2⟩ := batchStep_cancelled succ s e h
    simp only [List.foldl_cons]
    rw [ih _ h2, h1]

/-- Witness for batch_no_new_starts_after_cancel: after cancelling the
fresh 5-chapter batch, a submission and an entry event leave the started
set unchanged. -/
theorem batch_no_new_starts_after_cancel_witness :
    (([.submit, .enter 0] : List BatchEvent).foldl
        (batchStep (fun _ => true))
        (batchStep (fun _ => true) (batchInit 5) .cancel)).started =
      (batchStep (fun _ => true) (batchInit 5) .cancel).started :=
  batch_no_new_starts_after_cancel (fun _ => true) _ _ rfl

/-- Counterexample for Claim C4 as stated: five chapters, units 1 and 2
submitted and entered, then cancel is invoked; the submission loop breaks
(units 3-5 stay pending and never start), units 1 and 2 finish
successfully and their futures complete, but the results loop observes the
flag and breaks before processing them, so the emitted outcome counts are
successful = 0 and failed = 0: the completed units are not reflected in
the outcome. -/
theorem batch_cancel_outcome_counterexample :
    (runBatch (fun _ => true) 5 [.submit, .submit, .enter 0, .enter 1, .cancel,
        .submit, .finish 0, .finish 1, .process]).started = [0, 1] ∧
    (runBatch (fun _ => true) 5 [.submit, .submit, .enter 0, .enter 1, .cancel,
        .submit, .finish 0, .finish 1, .process]).pending = [2, 3, 4] ∧
    (runBatch (fun _ => true) 5 [.submit, .submit, .enter 0, .enter 1, .cancel,
        .submit, .finish 0, .finish 1, .process]).doneQ =
      [(0, some true), (1, some true)] ∧
    (runBatch (fun _ => true) 5 [.submit, .submit, .enter 0, .enter 1, .cancel,
        .submit, .finish 0, .finish 1, .process]).successful = 0 ∧
    (runBatch (fun _ => true) 5 [.submit, .submit, .enter 0, .enter 1, .cancel,
        .submit, .finish 0, .finish 1, .process]).failed = 0 ∧
    (runBatch (fun _ => true) 5 [.submit, .submit, .enter 0, .enter 1, .cancel,
        .submit, .finish 0, .finish 1, .process]).processing = false := by
  refine ⟨rfl, rfl, rfl, rfl, rfl, rfl⟩

theorem convert_to_pdf_missing (penv : PdfEnv) (keep : Bool)
    (h : penv.folderExists = false ∨ penv.isDir = false) :
    convert_to_pdf penv keep = ⟨none, false, penv.files⟩ := by
  rcases h with h | h <;> simp [convert_to_pdf, h]

theorem convert_to_pdf_no_images (penv : PdfEnv) (keep : Bool)
    (h : penv.files.filter isImageFile = []) :
    convert_to_pdf penv keep = ⟨none, false, penv.files⟩ := by
  by_cases hfe : penv.folderExists
  · by_cases hdir : penv.isDir
    · simp [convert_to_pdf, hfe, hdir, h, sortStrings]
    · simp [convert_to_pdf, hdir]
  · simp [convert_to_pdf, hfe]

theorem convert_to_pdf_write_fail (penv : PdfEnv) (keep : Bool)
    (h : penv.writeOk = false) :
    (convert_to_pdf penv keep).result = none ∧
    (convert_to_pdf penv keep).folderRemoved = false ∧
    ∃ temps, (convert_to_pdf penv keep).folderFiles = penv.files ++ temps := by
  simp only [convert_to_pdf]
  split
  · exact ⟨rfl, rfl, [], by simp⟩
  · split
    · exact ⟨rfl, rfl, [], by simp⟩
    · split
      · exact ⟨rfl, rfl, _, rfl⟩
      · split
        · next hw => rw [h] at hw; exact absurd hw (by simp)
        · exact ⟨rfl, rfl, _, rfl⟩

theorem convert_to_pdf_removed_only (penv : PdfEnv) (keep : Bool)
    (h : (convert_to_pdf penv keep).folderRemoved = true) :
    (convert_to_pdf penv keep).result ≠ none ∧ keep = false ∧
      penv.writeOk = true := by
  revert h
  simp only [convert_to_pdf]
  split
  · intro h; exact absurd h (by simp)
  · split
    · intro h; exact absurd h (by simp)
    · split
      · intro h; exact absurd h (by simp)
      · split
        · next hw =>
          split
          · next hk =>
            intro _
            refine ⟨by simp, ?_, hw⟩
            simp only [Bool.and_eq_true, Bool.not_eq_eq_eq_not, Bool.not_true] at hk
            exact hk.1
          · intro h; exact absurd h (by simp)
        · intro h; exact absurd h (by simp)

theorem convert_to_cbz_missing (cenv : CbzEnv) (keep : Bool)
    (h : cenv.folderExists = false ∨ cenv.isDir = false) :
    convert_to_cbz cenv keep = ⟨none, false, cenv.files⟩ := by
  rcases h with h | h <;> simp [convert_to_cbz, h]

theorem convert_to_cbz_no_images (cenv : CbzEnv) (keep : Bool)
    (h : cenv.files.filter isImageFile = []) :
    convert_to_cbz cenv keep = ⟨none, false, cenv.files⟩ := by
  by_cases hfe : cenv.folderExists
  · by_cases hdir : cenv.isDir
    · simp [convert_to_cbz, hfe, hdir, h, sortStrings]
    · simp [convert_to_cbz, hdir]
  · simp [convert_to_cbz, hfe]

theorem convert_to_cbz_write_fail (cenv : CbzEnv) (keep : Bool)
    (h : cenv.writeOk = false) :
    convert_to_cbz cenv keep = ⟨none, false, cenv.files⟩ := by
  simp only [convert_to_cbz]
  split
  · rfl
  · split
    · rfl
    · split
      · next hw => rw [h] at hw; exact absurd hw (by simp)
      · rfl

theorem convert_to_cbz_removed_only (cenv : CbzEnv) (keep : Bool)
    (h : (convert_to_cbz cenv keep).folderRemoved = true) :
    (convert_to_cbz cenv keep).result ≠ none ∧ keep = false ∧
      cenv.writeOk = true := by
  revert h
  simp only [convert_to_cbz]
  split
  · intro h; exact absurd h (by simp)
  · split
    · intro h; exact absurd h (by simp)
    · split
      · next hw =>
        split
        · next hk =>
          intro _
          refine ⟨by simp, ?_, hw⟩
          simp only [Bool.and_eq_true, Bool.not_eq_eq_eq_not, Bool.not_true] at hk
          exact hk.1
        · intro h; exact absurd h (by simp)
      · intro h; exact absurd h (by simp)

/-- Claim C10 (amended): the converters are total functions of the
modelled filesystem effects (no exception escapes); a missing or
non-directory folder, an empty image listing, or a failed archive write
all return null with the source folder not removed; convert_to_cbz leaves
the folder contents unchanged on every such failure, while convert_to_pdf
leaves the original files plus any .temp.jpg re-encoding artifacts created
before the failed write; and for both converters the source folder is
removed only when the archive was written successfully and keep_images is
false. -/
theorem converters_failure_spec (penv : PdfEnv) (cenv : CbzEnv) (keep : Bool) :
    (penv.folderExists = false ∨ penv.isDir = false →
      convert_to_pdf penv keep = ⟨none, false, penv.files⟩) ∧
    (penv.files.filter isImageFile = [] →
      convert_to_pdf penv keep = ⟨none, false, penv.files⟩) ∧
    (penv.writeOk = false →
      (convert_to_pdf penv keep).result = none ∧
      (convert_to_pdf penv keep).folderRemoved = false ∧
      ∃ temps, (convert_to_pdf penv keep).folderFiles = penv.files ++ temps) ∧
    ((convert_to_pdf penv keep).folderRemoved = true →
      (convert_to_pdf penv keep).result ≠ none ∧ keep = false ∧
        penv.writeOk = true) ∧
    (cenv.folderExists = false ∨ cenv.isDir = false →
      convert_to_cbz cenv keep = ⟨none, false, cenv.files⟩) ∧
    (cenv.files.filter isImageFile = [] →
      convert_to_cbz cenv keep = ⟨none, false, cenv.files⟩) ∧
    (cenv.writeOk = false →
      convert_to_cbz cenv keep = ⟨none, false, cenv.files⟩) ∧
    ((convert_to_cbz cenv keep).folderRemoved = true →
      (convert_to_cbz cenv keep).result ≠ none ∧ keep = false ∧
        cenv.writeOk = true) :=
  ⟨convert_to_pdf_missing penv keep, convert_to_pdf_no_images penv keep,
    convert_to_pdf_write_fail penv keep, convert_to_pdf_removed_only penv keep,
    convert_to_cbz_missing cenv keep, convert_to_cbz_no_images cenv keep,
    convert_to_cbz_write_fail cenv keep, convert_to_cbz_removed_only cenv keep⟩

/-- Witness for converters_failure_spec: a missing folder makes both
converters return null leaving the (empty) listing unchanged. -/
theorem converters_failure_spec_witness :
    convert_to_pdf
        { folderName := "c", folderExists := false, isDir := false,
          files := ["001.png"], mode := fun _ => .other, openOk := fun _ => true,
          saveOk := fun _ => true, writeOk := true, unlinkOk := fun _ => true,
          rmtreeOk := true } true = ⟨none, false, ["001.png"]⟩ ∧
    convert_to_cbz
        { folderName := "c", folderExists := false, isDir := false,
          files := ["001.png"], writeOk := true, rmtreeOk := true } true =
      ⟨none, false, ["001.png"]⟩ :=
  ⟨(converters_failure_spec
        { folderName := "c", folderExists := false, isDir := false,
          files := ["001.png"], mode := fun _ => .other,
          openOk := fun _ => true, saveOk := fun _ => true, writeOk := true,
          unlinkOk := fun _ => true, rmtreeOk := true }
        { folderName := "c", folderExists := false, isDir := false,
          files := ["001.png"], writeOk := true, rmtreeOk := true }
        true).1 (Or.inl rfl),
    (converters_failure_spec
        { folderName := "c", folderExists := false, isDir := false,
          files := ["001.png"], mode := fun _ => .other,
          openOk := fun _ => true, saveOk := fun _ => true, writeOk := true,
          unlinkOk := fun _ => true, rmtreeOk := true }
        { folderName := "c", folderExists := false, isDir := false,
          files := ["001.png"], writeOk := true, rmtreeOk := true }
        true).2.2.2.2.1 (Or.inl rfl)⟩

/-- Counterexample for Claim C10 as stated: converting a folder holding a
single RGBA image when the PDF write fails returns null but leaves the
re-encoded temp JPEG behind, so the source folder contents change on
failure. -/
theorem convert_to_pdf_temp_counterexample :
    convert_to_pdf
        { folderName := "Chapter 1", folderExists := true,
          isDir := true, files := ["001.png"], mode := fun _ => .rgba,
          openOk := fun _ => true, saveOk := fun _ => true, writeOk := false,
          unlinkOk := fun _ => true, rmtreeOk := true } true =
      ⟨none, false, ["001.png", "001.temp.jpg"]⟩ ∧
    (["001.png", "001.temp.jpg"] : List String) ≠ ["001.png"] :=
  ⟨rfl, by decide⟩

theorem digitChar_lt : ∀ a < 10, ∀ b < 10, a < b →
    Nat.digitChar a < Nat.digitChar b := by decide

theorem toDigitsCore_last (fuel m : Nat) (ds : List Char) (h : m < 10) :
    Nat.toDigitsCore 10 (fuel + 1) m ds = Nat.digitChar (m % 10) :: ds := by
  have h0 : m / 10 = 0 := by omega
  simp [Nat.toDigitsCore, h0]

theorem toDigitsCore_step (fuel m : Nat) (ds : List Char) (h : 10 ≤ m) :
    Nat.toDigitsCore 10 (fuel + 1) m ds =
      Nat.toDigitsCore 10 fuel (m / 10) (Nat.digitChar (m % 10) :: ds) := by
  have h0 : ¬ m / 10 = 0 := by omega
  simp [Nat.toDigitsCore, h0]

theorem pad3_data_eq {n : Nat} (h : n ≤ 999) :
    (pad3 n).data =
      [Nat.digitChar (n / 100), Nat.digitChar (n / 10 % 10),
        Nat.digitChar (n % 10)] := by
  have hdata : (pad3 n).data =
      List.replicate (3 - (Nat.toDigits 10 n).length) '0' ++ Nat.toDigits 10 n := rfl
  have hz : Nat.digitChar 0 = '0' := rfl
  by_cases h1 : n < 10
  · have ht : Nat.toDigits 10 n = [Nat.digitChar (n % 10)] :=
      toDigitsCore_last n n [] h1
    have e1 : n / 100 = 0 := by omega
    have e2 : n / 10 = 0 := by omega
    rw [hdata, ht, e1, e2]
    simp [hz, List.replicate]
  · by_cases h2 : n < 100
    · obtain ⟨k, rfl⟩ : ∃ k, n = k + 1 := ⟨n - 1, by omega⟩
      have s1 : Nat.toDigits 10 (k + 1) = Nat.toDigitsCore 10 (k + 1 + 1) (k + 1) [] := rfl
      have ht : Nat.toDigits 10 (k + 1) =
          [Nat.digitChar ((k + 1) / 10 % 10), Nat.digitChar ((k + 1) % 10)] := by
        rw [s1, toDigitsCore_step (k + 1) (k + 1) [] (by omega),
          toDigitsCore_last k ((k + 1) / 10) _ (by omega)]
      have e1 : (k + 1) / 100 = 0 := by omega
      rw [hdata, ht, e1, hz]
      simp [List.replicate]
    · obtain ⟨k, rfl⟩ : ∃ k, n = k + 1 := ⟨n - 1, by omega⟩
      obtain ⟨j, rfl⟩ : ∃ j, k = j + 1 := ⟨k - 1, by omega⟩
      have s1 : Nat.toDigits 10 (j + 1 + 1) =
          Nat.toDigitsCore 10 (j + 1 + 1 + 1) (j + 1 + 1) [] := rfl
      have hmul : (10 : Nat) * 10 = 100 := rfl
      have ht : Nat.toDigits 10 (j + 1 + 1) =
          [Nat.digitChar ((j + 1 + 1) / 100), Nat.digitChar ((j + 1 + 1) / 10 % 10),
            Nat.digitChar ((j + 1 + 1) % 10)] := by
        rw [s1, toDigitsCore_step (j + 1 + 1) (j + 1 + 1) [] (by omega),
          toDigitsCore_step (j + 1) ((j + 1 + 1) / 10) _ (by omega),
          toDigitsCore_last j ((j + 1 + 1) / 10 / 10) _
            (by rw [Nat.div_div_eq_div_mul, hmul]; omega),
          Nat.div_div_eq_div_mul, hmul]
        have e : (j + 1 + 1) / 100 % 10 = (j + 1 + 1) / 100 :=
          Nat.mod_eq_of_lt (by omega)
        rw [e]
      rw [hdata, ht]
      simp

theorem pad3_append_lt {i j : Nat} (hi : i ≤ 999) (hj : j ≤ 999) (hij : i < j)
    (e f : String) : pad3 i ++ e < pad3 j ++ f := by
  rw [String.lt_iff_toList_lt]
  have hta : (pad3 i ++ e).toList = (pad3 i).data ++ e.data := by
    simp [String.toList, String.data_append]
  have htb : (pad3 j ++ f).toList = (pad3 j).data ++ f.data := by
    simp [String.toList, String.data_append]
  rw [hta, htb]
  show List.Lex (· < ·) ((pad3 i).data ++ e.data) ((pad3 j).data ++ f.data)
  rw [pad3_data_eq hi, pad3_data_eq hj]
  simp only [List.cons_append, List.nil_append]
  have tri : i / 100 < j / 100 ∨ (i / 100 = j / 100 ∧ (i / 10 % 10 < j / 10 % 10 ∨
      (i / 10 % 10 = j / 10 % 10 ∧ i % 10 < j % 10))) := by omega
  rcases tri with h | ⟨h1, h | ⟨h2, h3⟩⟩
  · exact List.Lex.rel (digitChar_lt _ (by omega) _ (by omega) h)
  · rw [h1]
    exact List.Lex.cons (List.Lex.rel (digitChar_lt _ (by omega) _ (by omega) h))
  · rw [h1, h2]
    exact List.Lex.cons (List.Lex.cons
      (List.Lex.rel (digitChar_lt _ (by omega) _ (by omega) h3)))

theorem image_filename_shape {i : Nat} {u f : String}
    (h : image_filename i u = some f) : ∃ e, f = pad3 i ++ e := by
  unfold image_filename at h
  cases he : image_ext u with
  | none => rw [he] at h; simp at h
  | some e =>
    rw [he] at h
    simp only [Option.map_some'] at h
    injection h with h
    exact ⟨e, h.symm⟩

theorem image_filenames_from_mem :
    ∀ (urls : List String) (i : Nat) (fns : List String),
      image_filenames_from i urls = some fns →
      ∀ f ∈ fns, ∃ k u, i ≤ k ∧ k < i + urls.length ∧
        image_filename k u = some f := by
  intro urls
  induction urls with
  | nil =>
    intro i fns h f hf
    simp only [image_filenames_from] at h
    injection h with h
    rw [← h] at hf
    exact absurd hf (List.not_mem_nil f)
  | cons u us ih =>
    intro i fns h f hf
    simp only [image_filenames_from] at h
    cases hu : image_filename i u with
    | none => rw [hu] at h; simp at h
    | some g =>
      rw [hu] at h
      cases hrest : image_filenames_from (i + 1) us with
      | none => rw [hrest] at h; simp at h
      | some gs =>
        rw [hrest] at h
        simp only [Option.map_some'] at h
        injection h with h
        rw [← h] at hf
        rcases List.mem_cons.mp hf with rfl | hf2
        · exact ⟨i, u, le_rfl, by simp only [List.length_cons]; omega, hu⟩
        · obtain ⟨k, u2, hk1, hk2, hk3⟩ := ih (i + 1) gs hrest f hf2
          exact ⟨k, u2, by omega,
            by simp only [List.length_cons]; omega, hk3⟩

theorem image_filenames_from_sorted :
    ∀ (urls : List String) (i : Nat) (fns : List String),
      1 ≤ i → i + urls.length ≤ 1000 →
      image_filenames_from i urls = some fns → List.Sorted (· < ·) fns := by
  intro urls
  induction urls with
  | nil =>
    intro i fns _ _ h
    simp only [image_filenames_from] at h
    injection h with h
    rw [← h]
    exact List.sorted_nil
  | cons u us ih =>
    intro i fns hi hlen h
    simp only [image_filenames_from] at h
    cases hu : image_filename i u with
    | none => rw [hu] at h; simp at h
    | some g =>
      rw [hu] at h
      cases hrest : image_filenames_from (i + 1) us with
      | none => rw [hrest] at h; simp at h
      | some gs =>
        rw [hrest] at h
        simp only [Option.map_some'] at h
        injection h with h
        rw [← h]
        rw [List.sorted_cons]
        simp only [List.length_cons] at hlen
        constructor
        · intro b hb
          obtain ⟨k, u2, hk1, hk2, hk3⟩ :=
            image_filenames_from_mem us (i + 1) gs hrest b hb
          obtain ⟨e1, he1⟩ := image_filename_shape hu
          obtain ⟨e2, he2⟩ := image_filename_shape hk3
          rw [he1, he2]
          exact pad3_append_lt (by omega) (by omega) (by omega) e1 e2
        · exact ih (i + 1) gs (by omega) (by omega) hrest

theorem image_filenames_from_get :
    ∀ (urls : List String) (i k : Nat) (fns : List String),
      image_filenames_from i urls = some fns →
      fns[k]? = (urls[k]?).bind (fun u => image_filename (i + k) u) := by
  intro urls
  induction urls with
  | nil =>
    intro i k fns h
    simp only [image_filenames_from] at h
    injection h with h
    rw [← h]
    simp
  | cons u us ih =>
    intro i k fns h
    simp only [image_filenames_from] at h
    cases hu : image_filename i u with
    | none => rw [hu] at h; simp at h
    | some g =>
      rw [hu] at h
      cases hrest : image_filenames_from (i + 1) us with
      | none => rw [hrest] at h; simp at h
      | some gs =>
        rw [hrest] at h
        simp only [Option.map_some'] at h
        injection h with h
        rw [← h]
        cases k with
        | zero => simp [hu]
        | succ k =>
          simp only [List.getElem?_cons_succ]
          rw [ih (i + 1) k gs hrest]
          have e : i + 1 + k = i + (k + 1) := by omega
          rw [e]

/-- Claim C3: for a chapter image URL list of at most 999 entries whose
filenames resolve, the k-th produced filename (0-based position k, page
number k + 1) is the zero-padded 3-digit page number followed by that URL
extension (defaulting to .jpg when the URL path has none), the filename
list is strictly increasing in lexicographic string order, and therefore
the lexicographically sorted arrangement of the filenames is exactly the
original production order. -/
theorem image_filenames_order_spec (urls fns : List String)
    (hlen : urls.length ≤ 999) (h : image_filenames urls = some fns) :
    (∀ k, fns[k]? = (urls[k]?).bind (fun u => image_filename (k + 1) u)) ∧
    List.Sorted (· < ·) fns ∧
    (∀ l, l.Perm fns → l.Sorted (· ≤ ·) → l = fns) := by
  have hs : List.Sorted (· < ·) fns :=
    image_filenames_from_sorted urls 1 fns le_rfl (by omega) h
  refine ⟨?_, hs, ?_⟩
  · intro k
    rw [image_filenames_from_get urls 1 k fns h]
    have e : 1 + k = k + 1 := by omega
    rw [e]
  · intro l hperm hsort
    have hs2 : List.Sorted (· ≤ ·) fns := hs.imp (fun hab => le_of_lt hab)
    exact List.eq_of_perm_of_sorted hperm hsort hs2

/-- Witness for image_filenames_order_spec on a 2-URL chapter: one URL
with a png extension, one with none. -/
theorem image_filenames_order_spec_witness :
    image_filenames ["https://e.com/a/1.png", "https://e.com/a/2"] =
      some ["001.png", "002.jpg"] ∧
    List.Sorted (· < ·) ["001.png", "002.jpg"] :=
  ⟨rfl, (image_filenames_order_spec ["https://e.com/a/1.png", "https://e.com/a/2"]
    ["001.png", "002.jpg"] (by decide) rfl).2.1⟩

end Mangapill
